import Mathlib

/-!
Shallow embedding of the template-based certificate rendering pipeline of
the certificate-maker backend (`src/backend/src/utils/templateCertificateGenerator.ts`
and the field-mapping section of `src/backend/src/routes/certificates.ts`).

Numbers are modelled as exact rationals (ℚ); JavaScript `Math.round` is
modelled as floor(q + 1/2), which is its behaviour on all finite inputs.
Font metrics (the pdf-lib `widthOfTextAtSize` metric) are an opaque parameter.
-/

namespace CertMaker

/-- JavaScript `Math.round`: rounds half-way cases toward +∞. -/
def jsRound (q : ℚ) : ℚ := ((q + 1/2).floor : ℤ)

inductive TextAlign
  | left
  | center
  | right
  deriving DecidableEq, Repr

inductive FontWeight
  | normal
  | bold
  deriving DecidableEq, Repr

inductive FontStyle
  | normal
  | italic
  deriving DecidableEq, Repr

/-- `TemplateField` from `src/backend` types: a positionable, styleable text slot. -/
structure TemplateField where
  id : String
  name : String
  x : ℚ
  y : ℚ
  width : ℚ
  height : ℚ
  fontSize : ℚ
  fontFamily : String
  fontColor : String
  textAlign : TextAlign
  fontWeight : FontWeight
  fontStyle : FontStyle
  deriving DecidableEq, Repr

/-- The scaled geometry of one field on the target surface. -/
structure ScaledGeom where
  scaledX : ℚ
  scaledY : ℚ
  scaledFontSize : ℚ
  deriving DecidableEq, Repr

/-- Geometry scaling of the raster branch (`generateFromImage`, lines 50-56):
`scaleX = imageWidth / templateWidth`, `scaleY = imageHeight / templateHeight`,
each output passed through `Math.round`. -/
def rasterScaledGeom (templateWidth templateHeight imageWidth imageHeight
    x y fontSize : ℚ) : ScaledGeom :=
  let scaleX := imageWidth / templateWidth
  let scaleY := imageHeight / templateHeight
  { scaledX := jsRound (x * scaleX)
    scaledY := jsRound (y * scaleY)
    scaledFontSize := jsRound (fontSize * scaleY) }

/-- Geometry scaling of the vector branch (`generateFromPDF`, lines 157-175):
exact products, with the vertical origin flipped to PDF bottom-up coordinates. -/
def vectorScaledGeom (templateWidth templateHeight pageWidth pageHeight
    x y fontSize : ℚ) : ScaledGeom :=
  let scaleX := pageWidth / templateWidth
  let scaleY := pageHeight / templateHeight
  { scaledX := x * scaleX
    scaledY := pageHeight - (y * scaleY)
    scaledFontSize := fontSize * scaleY }

theorem jsRound_eq (q : ℚ) : jsRound q = (⌊q + 1/2⌋ : ℤ) := rfl

/-! ## String utilities

JavaScript string operations are modelled char-by-char on `String.data`,
restricted to the Basic Multilingual Plane behaviours the code exercises
(ASCII case mapping, the JS `\s` class, single-char global replaces). -/

/-- The character class matched by JavaScript regex `\s`. -/
def isJsWhitespace (c : Char) : Bool :=
  let n := c.toNat
  n = 9 || n = 10 || n = 11 || n = 12 || n = 13 || n = 32 || n = 160 || n = 0x1680 ||
  (0x2000 ≤ n && n ≤ 0x200a) || n = 0x2028 || n = 0x2029 || n = 0x202f || n = 0x205f ||
  n = 0x3000 || n = 0xfeff

/-- ASCII lower-casing of a single character (JS `toLowerCase` on ASCII input). -/
def lowerChar (c : Char) : Char :=
  if 'A' ≤ c ∧ c ≤ 'Z' then Char.ofNat (c.toNat + 32) else c

/-- `name.toLowerCase().replace(/[_\s-]/g, "")` from the field-mapping switch in
`src/backend/src/routes/certificates.ts` (line 285). -/
def normalizeFieldName (name : String) : String :=
  String.mk ((name.data.map lowerChar).filter
    (fun c => !(c == '_' || c == '-' || isJsWhitespace c)))

/-- One replacement step of `escapeXml`: the five chained single-char global
replaces of `templateCertificateGenerator.ts` (lines 408-415) are equivalent to
one simultaneous char-wise expansion, because `&` is replaced first and no
replacement string contains a character replaced by a later step. -/
def escapeXmlChar (c : Char) : List Char :=
  if c = '&' then "&amp;".data
  else if c = '<' then "&lt;".data
  else if c = '>' then "&gt;".data
  else if c = '"' then "&quot;".data
  else if c = Char.ofNat 39 then "&apos;".data
  else [c]

/-- `TemplateCertificateGenerator.escapeXml`. -/
def escapeXml (text : String) : String :=
  String.mk ((text.data.map escapeXmlChar).flatten)

/-- `haystack` starts with `needle` (char-list version). -/
def charsStartWith : List Char → List Char → Bool
  | _, [] => true
  | [], _ :: _ => false
  | c :: cs, p :: ps => c == p && charsStartWith cs ps

/-- `haystack` contains `needle` as a contiguous substring (JS `String.includes`). -/
def charsContain (needle : List Char) : List Char → Bool
  | [] => needle.isEmpty
  | c :: cs => charsStartWith (c :: cs) needle || charsContain needle cs

/-- JS `s.includes(pat)`. -/
def strIncludes (s pat : String) : Bool := charsContain pat.data s.data

/-- JS object-literal lookup `data[name] || ""`: first matching key wins,
a missing key (or an empty stored value) yields the empty string. -/
def dataLookup (data : List (String × String)) (name : String) : String :=
  match data with
  | [] => ""
  | (k, v) :: rest => if k = name then v else dataLookup rest name

/-! ## Field value resolver

The `switch (fieldNameLower)` in `createCertificateRoutes`
(`src/backend/src/routes/certificates.ts`, lines 281-325). -/

/-- The subject data available when generating from a template: the student and
course rows, the generated certificate number and the pre-formatted issue date. -/
structure Subject where
  firstName : String
  lastName : String
  email : String
  nationalId : Option String
  passportNo : Option String
  courseName : String
  issueDateFormatted : String
  certificateNumber : String
  deriving DecidableEq, Repr

/-- The recognized canonical keys of the field-mapping switch. -/
def recognizedKeys : List String :=
  ["studentname", "name", "coursename", "course", "date", "issuedate",
   "certificatenumber", "certificateno", "email", "nationalid",
   "passportno", "passportnumber"]

/-- The field-mapping switch: maps one field name to its resolved value.
Faithful translation of the `switch` statement (each `case` group becomes one
branch; `default` yields the empty string; `student.nationalId || ""` becomes
`Option.getD ""`). -/
def resolveField (subj : Subject) (name : String) : String :=
  let k := normalizeFieldName name
  if k = "studentname" ∨ k = "name" then subj.firstName ++ " " ++ subj.lastName
  else if k = "coursename" ∨ k = "course" then subj.courseName
  else if k = "date" ∨ k = "issuedate" then subj.issueDateFormatted
  else if k = "certificatenumber" ∨ k = "certificateno" then subj.certificateNumber
  else if k = "email" then subj.email
  else if k = "nationalid" then subj.nationalId.getD ""
  else if k = "passportno" ∨ k = "passportnumber" then subj.passportNo.getD ""
  else ""

/-! ## Colours -/

/-- An 8-bit RGB triple. -/
structure Rgb where
  r : Nat
  g : Nat
  b : Nat
  deriving DecidableEq, Repr

/-- A colour with components in [0,1], as passed to pdf-lib `rgb(...)`. -/
structure Rgb01 where
  r : ℚ
  g : ℚ
  b : ℚ
  deriving DecidableEq, Repr

/-- Value of one hex digit, `none` for a non-digit. -/
def hexDigitVal (c : Char) : Option Nat :=
  if '0' ≤ c ∧ c ≤ '9' then some (c.toNat - '0'.toNat)
  else if 'a' ≤ c ∧ c ≤ 'f' then some (c.toNat - 'a'.toNat + 10)
  else if 'A' ≤ c ∧ c ≤ 'F' then some (c.toNat - 'A'.toNat + 10)
  else none

/-- `hex.replace(/^#/, "")`: drop one leading `#` if present. -/
def stripHash : List Char → List Char
  | '#' :: rest => rest
  | other => other

/-- Accumulate leading hex digits, stopping at the first non-digit
(the greedy prefix parse of JS `parseInt`). -/
def parseHexAcc : List Char → Nat → Nat
  | [], acc => acc
  | c :: cs, acc =>
    match hexDigitVal c with
    | some d => parseHexAcc cs (16 * acc + d)
    | none => acc

/-- The optional `0x`/`0X` prefix accepted by JS `parseInt` at radix 16. -/
def skipHexPrefix (t : List Char) : List Char :=
  match t with
  | '0' :: c :: rest => if c = 'x' ∨ c = 'X' then rest else '0' :: c :: rest
  | _ => t

/-- Digits part of JS `parseInt(·, 16)`: after the optional `0x` prefix there
must be at least one hex digit (else `NaN`), then the greedy prefix is taken. -/
def parseHexCore (t : List Char) : Option Nat :=
  match skipHexPrefix t with
  | c :: rest =>
    match hexDigitVal c with
    | some _ => some (parseHexAcc (c :: rest) 0)
    | none => none
  | [] => none

/-- JS `parseInt(s, 16)`: skip leading whitespace, optional sign, optional
`0x`/`0X` prefix, then greedily parse hex digits; `none` models `NaN`.
Float rounding above 2^53 is not modelled (irrelevant below 14 digits). -/
def jsParseIntHex (s : List Char) : Option Int :=
  match s.dropWhile (fun c => isJsWhitespace c) with
  | '-' :: rest => (parseHexCore rest).map (fun n => -(n : Int))
  | '+' :: rest => (parseHexCore rest).map (fun n => (n : Int))
  | rest => (parseHexCore rest).map (fun n => (n : Int))

/-- The 32-bit pattern of a JS number fed to the bitwise operators
(`ToInt32`); on `NaN` the bitwise operators see the pattern 0. -/
def toUint32 (v : Option Int) : Nat :=
  match v with
  | none => 0
  | some i => (i % (2 ^ 32 : Int)).toNat

/-- `TemplateCertificateGenerator.hexToRgb` (lines 395-406): strip one leading
`#`, `parseInt(hex, 16)`, then `(n >> 16) & 255`, `(n >> 8) & 255`, `n & 255`.
The signed 32-bit shifts followed by `& 255` agree with division and mod on
the unsigned 32-bit pattern. -/
def hexToRgb (hex : String) : Rgb :=
  let n := toUint32 (jsParseIntHex (stripHash hex.data))
  { r := n / 2 ^ 16 % 256, g := n / 2 ^ 8 % 256, b := n % 256 }

/-- The 22 hexadecimal digit characters. -/
def hexDigitChars : List Char :=
  ['a', 'b', 'c', 'd', 'e', 'f', 'A', 'B', 'C', 'D', 'E', 'F',
   '0', '1', '2', '3', '4', '5', '6', '7', '8', '9']

/-- The integer value denoted by a string of hex digits (most significant
first): the reference value against which `hexToRgb` is checked. -/
def hexValOfDigits (ds : List Char) : Nat :=
  ds.foldl (fun acc c => 16 * acc + (hexDigitVal c).getD 0) 0

/-- The pdf-lib colour `rgb(color.r / 255, color.g / 255, color.b / 255)`. -/
def rgb01Of (hex : String) : Rgb01 :=
  let c := hexToRgb hex
  { r := (c.r : ℚ) / 255, g := (c.g : ℚ) / 255, b := (c.b : ℚ) / 255 }

/-! ## Fonts

`widthOfTextAtSize` of a pdf-lib embedded font is opaque glyph metrics; it is
modelled as a parameter `Metrics : fontKey → text → size → width`. -/

/-- Opaque font metrics: font key, text, font size ↦ measured text width. -/
def Metrics : Type := String → String → ℚ → ℚ

/-- The keys of the `fontCache` object built in `generateFromPDF` (lines 148-155). -/
def standardFontKeys : List String :=
  ["Helvetica", "Helvetica-Bold", "Times-Roman", "Times-Bold", "Courier", "Courier-Bold"]

/-- Font-key selection (lines 177-183): start from the field family and, for
bold weight, upgrade to the bold variant when the family name contains
`Helvetica` / `Times` / `Courier`. `fontStyle` is never consulted here. -/
def selectFontKey (field : TemplateField) : String :=
  let fontKey := field.fontFamily
  if field.fontWeight = FontWeight.bold then
    if strIncludes fontKey "Helvetica" then "Helvetica-Bold"
    else if strIncludes fontKey "Times" then "Times-Bold"
    else if strIncludes fontKey "Courier" then "Courier-Bold"
    else fontKey
  else fontKey

/-- `fontCache[fontKey] || fontCache["Helvetica"]` (line 185): keys absent from
the cache fall back to Helvetica. -/
def resolveFont (fontKey : String) : String :=
  if fontKey ∈ standardFontKeys then fontKey else "Helvetica"

/-! ## Draw operations and QR annotation -/

/-- One pdf-lib draw call appended to a page. -/
inductive DrawOp
  | text (content : String) (x y size : ℚ) (fontKey : String) (color : Rgb01)
  | image (x y width height : ℚ)
  deriving DecidableEq, Repr

/-- `TemplateCertificateGenerator.addQRCodeToPDF` (lines 228-275).
`qrGen` is the outcome of the fallible part of the `try` block (QR rasterizing
and embedding); the `catch` swallows any error, producing no draw calls.
On success: a 60×60 image at `(pageWidth - 60 - 30, 30)` and a gray
`Scan to verify` caption at font size 8, horizontally centred under it. -/
def addQRCodeToPDF (qrGen : Except String Unit) (metrics : Metrics)
    (pageWidth pageHeight : ℚ) : List DrawOp :=
  match qrGen with
  | Except.error _ => []
  | Except.ok _ =>
    let qrSize : ℚ := 60
    let margin : ℚ := 30
    let fontSize : ℚ := 8
    let text := "Scan to verify"
    let textWidth := metrics "Helvetica" text fontSize
    [DrawOp.image (pageWidth - qrSize - margin) margin qrSize qrSize,
     DrawOp.text text (pageWidth - qrSize - margin + (qrSize - textWidth) / 2)
       (margin - 12) fontSize "Helvetica" { r := 2/5, g := 2/5, b := 2/5 }]

/-- `if (config.qrCodeData)` at the call sites (lines 123, 214): JS truthiness,
so `undefined` and the empty string both skip QR annotation. -/
def qrOpsFor (qrCodeData : Option String) (qrGen : Except String Unit)
    (metrics : Metrics) (pageWidth pageHeight : ℚ) : List DrawOp :=
  match qrCodeData with
  | none => []
  | some s => if s = "" then [] else addQRCodeToPDF qrGen metrics pageWidth pageHeight

/-! ## Raster template renderer (`generateFromImage`, lines 30-134) -/

/-- The string written into the SVG `text-anchor` attribute (line 66). -/
def alignStr : TextAlign → String
  | TextAlign.left => "left"
  | TextAlign.center => "center"
  | TextAlign.right => "right"

/-- One SVG text-overlay fragment of the pre-flatten composite: the attribute
values of the `<text>` element (lines 75-88) plus the scaled field anchor
`(fieldX, fieldY)` it was positioned from. The SVG `y` attribute is
`fieldY + fontSize` (baseline shifted down by the font size, line 79). -/
structure SvgOverlay where
  canvasWidth : ℚ
  canvasHeight : ℚ
  textX : ℚ
  textY : ℚ
  fieldX : ℚ
  fieldY : ℚ
  fontFamily : String
  fontSize : ℚ
  fontWeight : String
  fontStyle : String
  fill : Rgb
  textAnchor : String
  content : String
  deriving DecidableEq, Repr

/-- The overlay produced for one field, or `none` when the resolved value is
empty (`if (!value) continue`, lines 47-48). -/
def rasterOverlayFor (templateWidth templateHeight imageWidth imageHeight : ℚ)
    (data : List (String × String)) (field : TemplateField) : Option SvgOverlay :=
  let value := dataLookup data field.name
  if value = "" then none
  else
    let geom := rasterScaledGeom templateWidth templateHeight imageWidth imageHeight
      field.x field.y field.fontSize
    let scaleX := imageWidth / templateWidth
    let textX := match field.textAlign with
      | TextAlign.center => geom.scaledX + (field.width * scaleX / 2)
      | TextAlign.right => geom.scaledX + (field.width * scaleX)
      | TextAlign.left => geom.scaledX
    some { canvasWidth := imageWidth
           canvasHeight := imageHeight
           textX := textX
           textY := geom.scaledY + geom.scaledFontSize
           fieldX := geom.scaledX
           fieldY := geom.scaledY
           fontFamily := field.fontFamily
           fontSize := geom.scaledFontSize
           fontWeight := if field.fontWeight = FontWeight.bold then "bold" else "normal"
           fontStyle := if field.fontStyle = FontStyle.italic then "italic" else "normal"
           fill := hexToRgb field.fontColor
           textAnchor := alignStr field.textAlign
           content := escapeXml value }

/-- Renderer-entry-point configuration (`TemplateCertificateData`), with the
actual asset dimensions read back from the asset itself: `imageWidth/Height`
are the sharp `metadata.width/height` values (falling back to the declared dimensions
when metadata is absent, lines 40-41), and for the vector branch
`pageWidth/Height` come from `firstPage.getSize()`. -/
structure RasterConfig where
  fields : List TemplateField
  data : List (String × String)
  templateWidth : ℚ
  templateHeight : ℚ
  imageWidth : ℚ
  imageHeight : ℚ
  qrCodeData : Option String

/-- The observable output of the raster branch: one page sized
`imageWidth × 0.75` by `imageHeight × 0.75` (the fixed 96→72 DPI conversion,
lines 109-110), carrying the flattened overlay composite and the QR ops. -/
structure RasterOutput where
  pageCount : Nat
  pageWidth : ℚ
  pageHeight : ℚ
  overlays : List SvgOverlay
  qrOps : List DrawOp
  deriving DecidableEq, Repr

/-- `TemplateCertificateGenerator.generateFromImage`. -/
def generateFromImage (metrics : Metrics) (qrGen : Except String Unit)
    (cfg : RasterConfig) : RasterOutput :=
  let overlays := cfg.fields.filterMap
    (rasterOverlayFor cfg.templateWidth cfg.templateHeight cfg.imageWidth cfg.imageHeight cfg.data)
  let pdfWidth := cfg.imageWidth * 0.75
  let pdfHeight := cfg.imageHeight * 0.75
  { pageCount := 1
    pageWidth := pdfWidth
    pageHeight := pdfHeight
    overlays := overlays
    qrOps := qrOpsFor cfg.qrCodeData qrGen metrics pdfWidth pdfHeight }

/-! ## Vector template renderer (`generateFromPDF`, lines 136-226) -/

/-- Configuration of the vector branch; `pageWidth/pageHeight` are the first
true point dimensions of the first page. -/
structure VectorConfig where
  fields : List TemplateField
  data : List (String × String)
  templateWidth : ℚ
  templateHeight : ℚ
  pageWidth : ℚ
  pageHeight : ℚ
  qrCodeData : Option String

/-- The draw call produced for one field by the vector branch (lines 163-210),
or `none` when the resolved value is empty. -/
def vectorDrawField (metrics : Metrics) (templateWidth templateHeight pageWidth pageHeight : ℚ)
    (data : List (String × String)) (field : TemplateField) : Option DrawOp :=
  let value := dataLookup data field.name
  if value = "" then none
  else
    let scaleX := pageWidth / templateWidth
    let scaleY := pageHeight / templateHeight
    let scaledX := field.x * scaleX
    let scaledY := pageHeight - (field.y * scaleY)
    let scaledFontSize := field.fontSize * scaleY
    let font := resolveFont (selectFontKey field)
    let textWidth := metrics font value scaledFontSize
    let textX := match field.textAlign with
      | TextAlign.center => scaledX + (field.width * scaleX / 2) - (textWidth / 2)
      | TextAlign.right => scaledX + (field.width * scaleX) - textWidth
      | TextAlign.left => scaledX
    some (DrawOp.text value textX scaledY scaledFontSize font (rgb01Of field.fontColor))

/-- The observable output of the vector branch: the first page of the template itself
(dimensions unchanged) with the appended draw calls, field ops first, QR ops
last. -/
structure VectorOutput where
  pageWidth : ℚ
  pageHeight : ℚ
  ops : List DrawOp
  deriving DecidableEq, Repr

/-- `TemplateCertificateGenerator.generateFromPDF`. -/
def generateFromPDF (metrics : Metrics) (qrGen : Except String Unit)
    (cfg : VectorConfig) : VectorOutput :=
  let fieldOps := cfg.fields.filterMap
    (vectorDrawField metrics cfg.templateWidth cfg.templateHeight cfg.pageWidth cfg.pageHeight cfg.data)
  { pageWidth := cfg.pageWidth
    pageHeight := cfg.pageHeight
    ops := fieldOps ++ qrOpsFor cfg.qrCodeData qrGen metrics cfg.pageWidth cfg.pageHeight }

/-- Replace the `fontStyle` of a field by the fixed value `normal`: two fields with
the same image under this map differ at most in `fontStyle`. -/
def eraseFontStyle (f : TemplateField) : TemplateField :=
  { f with fontStyle := FontStyle.normal }

/-! # Theorems -/

/-- C1 (counterexample): the claim states the raster branch computes
`scaledX = x * (actualWidth / declaredWidth)` exactly, but the code rounds:
with declared width 2, actual width 1 and `x = 1`, the exact product is `1/2`
while the code produces `Math.round(1/2) = 1`. -/
theorem raster_scaledX_not_exact :
    (rasterScaledGeom 2 1 1 1 1 0 0).scaledX ≠ 1 * ((1 : ℚ) / 2) := by
  simp [rasterScaledGeom, jsRound_eq]
  norm_num

/-- C1 (amended): the vector branch computes the claimed formulas exactly
(`scaledX = x * (actualWidth/declaredWidth)`,
`scaledY = actualHeight - y * (actualHeight/declaredHeight)` (flipped),
`scaledFontSize = fontSize * (actualHeight/declaredHeight)`); the raster branch
computes the same formulas without the vertical flip but rounds each of the
three results to the nearest integer (JS `Math.round`, half-up). -/
theorem scaler_branch_formulas (declaredW declaredH actualW actualH x y fontSize : ℚ) :
    vectorScaledGeom declaredW declaredH actualW actualH x y fontSize =
      { scaledX := x * (actualW / declaredW)
        scaledY := actualH - y * (actualH / declaredH)
        scaledFontSize := fontSize * (actualH / declaredH) } ∧
    rasterScaledGeom declaredW declaredH actualW actualH x y fontSize =
      { scaledX := jsRound (x * (actualW / declaredW))
        scaledY := jsRound (y * (actualH / declaredH))
        scaledFontSize := jsRound (fontSize * (actualH / declaredH)) } :=
  ⟨rfl, rfl⟩

/-- C4 (counterexample): scale invariance fails in the vector branch.
With declared canvas 100×100, actual surface 100×100 and `y = 10`,
`scaledY = 100 - 10 = 90`; multiplying every dimension by `k = 2` gives
`scaledY = 200 - 10 = 190`, because the flip term `actualHeight` scales with
the surface. -/
theorem vector_scaledY_not_scale_invariant :
    (vectorScaledGeom (2 * 100) (2 * 100) (2 * 100) (2 * 100) 10 10 10).scaledY ≠
      (vectorScaledGeom 100 100 100 100 10 10 10).scaledY := by
  simp [vectorScaledGeom]

/-- C4 (amended): multiplying declared and actual dimensions by the same
`k > 0` leaves the whole raster-branch output unchanged and leaves the vector
`scaledX` and `scaledFontSize` of the vector branch unchanged, but shifts
its `scaledY` by `(k - 1) * actualHeight` (the flipped origin scales with
the surface), so the vector branch is not scale invariant. -/
theorem scaler_scale_invariance (k declaredW declaredH actualW actualH x y fontSize : ℚ)
    (hk : 0 < k) :
    rasterScaledGeom (k * declaredW) (k * declaredH) (k * actualW) (k * actualH) x y fontSize =
      rasterScaledGeom declaredW declaredH actualW actualH x y fontSize ∧
    (vectorScaledGeom (k * declaredW) (k * declaredH) (k * actualW) (k * actualH) x y fontSize).scaledX =
      (vectorScaledGeom declaredW declaredH actualW actualH x y fontSize).scaledX ∧
    (vectorScaledGeom (k * declaredW) (k * declaredH) (k * actualW) (k * actualH) x y fontSize).scaledFontSize =
      (vectorScaledGeom declaredW declaredH actualW actualH x y fontSize).scaledFontSize ∧
    (vectorScaledGeom (k * declaredW) (k * declaredH) (k * actualW) (k * actualH) x y fontSize).scaledY =
      (vectorScaledGeom declaredW declaredH actualW actualH x y fontSize).scaledY + (k - 1) * actualH := by
  have hW : k * actualW / (k * declaredW) = actualW / declaredW :=
    mul_div_mul_left actualW declaredW (ne_of_gt hk)
  have hH : k * actualH / (k * declaredH) = actualH / declaredH :=
    mul_div_mul_left actualH declaredH (ne_of_gt hk)
  refine ⟨?_, ?_, ?_, ?_⟩
  · simp only [rasterScaledGeom, hW, hH]
  · simp only [vectorScaledGeom, hW, hH]
  · simp only [vectorScaledGeom, hW, hH]
  · simp only [vectorScaledGeom, hW, hH]
    ring

/-- C4 (witness for the amended theorem at `k = 2`, canvas 100×100,
surface 100×100, field at `(10, 10)` with font size 10). -/
theorem scaler_scale_invariance_witness :
    rasterScaledGeom (2 * 100) (2 * 100) (2 * 100) (2 * 100) 10 10 10 =
      rasterScaledGeom 100 100 100 100 10 10 10 ∧
    (vectorScaledGeom (2 * 100) (2 * 100) (2 * 100) (2 * 100) 10 10 10).scaledX =
      (vectorScaledGeom 100 100 100 100 10 10 10).scaledX ∧
    (vectorScaledGeom (2 * 100) (2 * 100) (2 * 100) (2 * 100) 10 10 10).scaledFontSize =
      (vectorScaledGeom 100 100 100 100 10 10 10).scaledFontSize ∧
    (vectorScaledGeom (2 * 100) (2 * 100) (2 * 100) (2 * 100) 10 10 10).scaledY =
      (vectorScaledGeom 100 100 100 100 10 10 10).scaledY + (2 - 1) * 100 :=
  scaler_scale_invariance 2 100 100 100 100 10 10 10 (by norm_num)

/-- C2: every field whose normalized name (lower-cased, with underscores,
hyphens and whitespace removed) is a recognized canonical key resolves to the
corresponding subject attribute — full student name (first, space, last),
course name, formatted issue date, certificate number, student email,
national ID (empty if absent), passport number (empty if absent) — and every
field whose normalized name is not recognized resolves to exactly `""`. -/
theorem resolver_mapping (subj : Subject) (name : String) :
    (normalizeFieldName name = "studentname" ∨ normalizeFieldName name = "name" →
      resolveField subj name = subj.firstName ++ " " ++ subj.lastName) ∧
    (normalizeFieldName name = "coursename" ∨ normalizeFieldName name = "course" →
      resolveField subj name = subj.courseName) ∧
    (normalizeFieldName name = "date" ∨ normalizeFieldName name = "issuedate" →
      resolveField subj name = subj.issueDateFormatted) ∧
    (normalizeFieldName name = "certificatenumber" ∨ normalizeFieldName name = "certificateno" →
      resolveField subj name = subj.certificateNumber) ∧
    (normalizeFieldName name = "email" →
      resolveField subj name = subj.email) ∧
    (normalizeFieldName name = "nationalid" →
      resolveField subj name = subj.nationalId.getD "") ∧
    (normalizeFieldName name = "passportno" ∨ normalizeFieldName name = "passportnumber" →
      resolveField subj name = subj.passportNo.getD "") ∧
    (normalizeFieldName name ∉ recognizedKeys →
      resolveField subj name = "") := by
  refine ⟨?_, ?_, ?_, ?_, ?_, ?_, ?_, ?_⟩
  · rintro (h | h) <;> simp [resolveField, h]
  · rintro (h | h) <;> simp [resolveField, h]
  · rintro (h | h) <;> simp [resolveField, h]
  · rintro (h | h) <;> simp [resolveField, h]
  · intro h
    simp [resolveField, h]
  · intro h
    simp [resolveField, h]
  · rintro (h | h) <;> simp [resolveField, h]
  · intro h
    simp only [recognizedKeys, List.mem_cons, List.not_mem_nil, or_false, not_or] at h
    obtain ⟨h1, h2, h3, h4, h5, h6, h7, h8, h9, h10, h11, h12⟩ := h
    simp [resolveField, h1, h2, h3, h4, h5, h6, h7, h8, h9, h10, h11, h12]

/-- C2 (witness): a subject with national ID present; the field name
`"Student_Name"` normalizes to `studentname` and resolves to the full name. -/
theorem resolver_mapping_witness :
    resolveField
      { firstName := "Jane", lastName := "Doe", email := "jane@example.com"
        nationalId := some "N-1", passportNo := none, courseName := "Calculus"
        issueDateFormatted := "January 5, 2026", certificateNumber := "CERT-1" }
      "Student_Name" = "Jane Doe" :=
  (resolver_mapping
      { firstName := "Jane", lastName := "Doe", email := "jane@example.com"
        nationalId := some "N-1", passportNo := none, courseName := "Calculus"
        issueDateFormatted := "January 5, 2026", certificateNumber := "CERT-1" }
      "Student_Name").1 (Or.inl (by decide))

/-- Every hex digit character: is not JS whitespace, is not a sign, is not
`x`/`X`/`#`, has a digit value, and that value is at most 15. -/
theorem hexDigit_facts (c : Char) (h : c ∈ hexDigitChars) :
    isJsWhitespace c = false ∧ c ≠ '-' ∧ c ≠ '+' ∧ c ≠ 'x' ∧ c ≠ 'X' ∧ c ≠ '#' ∧
    (hexDigitVal c).isSome ∧ (hexDigitVal c).getD 0 ≤ 15 := by
  fin_cases h <;> decide

/-- On an all-digit list, the greedy accumulator consumes the whole list. -/
theorem parseHexAcc_eq_foldl (ds : List Char) (h : ∀ c ∈ ds, c ∈ hexDigitChars) :
    ∀ acc, parseHexAcc ds acc = ds.foldl (fun a c => 16 * a + (hexDigitVal c).getD 0) acc := by
  induction ds with
  | nil => intro acc; rfl
  | cons c cs ih =>
    intro acc
    obtain ⟨d, hd⟩ := Option.isSome_iff_exists.mp
      (hexDigit_facts c (h c (List.mem_cons_self c cs))).2.2.2.2.2.2.1
    simp only [parseHexAcc, hd, List.foldl_cons, Option.getD_some]
    exact ih (fun x hx => h x (List.mem_cons_of_mem c hx)) _

/-- The hex accumulator is bounded by `16 ^ length`. -/
theorem foldl_hexVal_lt (ds : List Char) (h : ∀ c ∈ ds, c ∈ hexDigitChars) :
    ∀ acc, ds.foldl (fun a c => 16 * a + (hexDigitVal c).getD 0) acc <
      16 ^ ds.length * (acc + 1) := by
  induction ds with
  | nil => intro acc; simp
  | cons c cs ih =>
    intro acc
    have hd := (hexDigit_facts c (h c (List.mem_cons_self c cs))).2.2.2.2.2.2.2
    have h1 := ih (fun x hx => h x (List.mem_cons_of_mem c hx))
      (16 * acc + (hexDigitVal c).getD 0)
    have h2 : 16 ^ cs.length * (16 * acc + (hexDigitVal c).getD 0 + 1) ≤
        16 ^ (cs.length + 1) * (acc + 1) := by
      have h3 : 16 * acc + (hexDigitVal c).getD 0 + 1 ≤ 16 * (acc + 1) := by omega
      calc 16 ^ cs.length * (16 * acc + (hexDigitVal c).getD 0 + 1)
          ≤ 16 ^ cs.length * (16 * (acc + 1)) := Nat.mul_le_mul_left _ h3
        _ = 16 ^ (cs.length + 1) * (acc + 1) := by ring
    simpa only [List.foldl_cons, List.length_cons] using lt_of_lt_of_le h1 h2

/-- A list of hex digits never starts with `#`, so `stripHash` keeps it. -/
theorem stripHash_of_digits (l : List Char) (h : ∀ c ∈ l, c ∈ hexDigitChars) :
    stripHash l = l := by
  unfold stripHash
  split
  · rename_i rest
    exact absurd (h '#' (List.mem_cons_self _ _)) (by decide)
  · rfl

/-- A list of hex digits has no `0x`/`0X` prefix to skip. -/
theorem skipHexPrefix_of_digits (l : List Char) (h : ∀ c ∈ l, c ∈ hexDigitChars) :
    skipHexPrefix l = l := by
  unfold skipHexPrefix
  split
  · rename_i c rest
    rw [if_neg]
    intro hx
    have hc := h c (by simp)
    rcases hx with hx | hx <;> rw [hx] at hc <;> revert hc <;> decide
  · rfl

/-- On a non-empty all-digit list the core parse succeeds with the
accumulator value. -/
theorem parseHexCore_of_digits (l : List Char) (hne : l ≠ [])
    (h : ∀ c ∈ l, c ∈ hexDigitChars) :
    parseHexCore l = some (parseHexAcc l 0) := by
  cases l with
  | nil => exact absurd rfl hne
  | cons c rest =>
    obtain ⟨d, hd⟩ := Option.isSome_iff_exists.mp
      (hexDigit_facts c (h c (by simp))).2.2.2.2.2.2.1
    unfold parseHexCore
    rw [skipHexPrefix_of_digits _ h]
    simp only [hd]

/-- `parseInt(l, 16)` on a non-empty all-digit list: no whitespace to skip,
no sign, full greedy parse. -/
theorem jsParseIntHex_of_digits (l : List Char) (hne : l ≠ [])
    (h : ∀ c ∈ l, c ∈ hexDigitChars) :
    jsParseIntHex l = some ((parseHexAcc l 0 : Nat) : Int) := by
  cases l with
  | nil => exact absurd rfl hne
  | cons c rest =>
    have hc := hexDigit_facts c (h c (by simp))
    unfold jsParseIntHex
    rw [List.dropWhile_cons, if_neg (by simp [hc.1])]
    split
    · rename_i rest2 heq
      rw [List.cons.injEq] at heq
      exact absurd heq.1 hc.2.1
    · rename_i rest2 heq
      rw [List.cons.injEq] at heq
      exact absurd heq.1 hc.2.2.1
    · rw [parseHexCore_of_digits _ hne h]
      simp

/-- C9: for every colour string of six hexadecimal digits with an optional
leading `#`, `hexToRgb` returns components `r`, `g`, `b` each in `[0, 255]`
with `r*65536 + g*256 + b` equal to the integer value of the six digits: the
conversion is lossless on well-formed 6-digit hex colours. -/
theorem hexToRgb_lossless (hex : String) (ds : List Char)
    (hshape : hex.data = ds ∨ hex.data = '#' :: ds)
    (hlen : ds.length = 6)
    (hdigits : ∀ c ∈ ds, c ∈ hexDigitChars) :
    (hexToRgb hex).r ≤ 255 ∧ (hexToRgb hex).g ≤ 255 ∧ (hexToRgb hex).b ≤ 255 ∧
    (hexToRgb hex).r * 65536 + (hexToRgb hex).g * 256 + (hexToRgb hex).b =
      hexValOfDigits ds := by
  have hne : ds ≠ [] := by
    intro h0
    rw [h0] at hlen
    simp at hlen
  have hstrip : stripHash hex.data = ds := by
    rcases hshape with hs | hs
    · rw [hs]
      exact stripHash_of_digits ds hdigits
    · rw [hs]
      rfl
  have hval : parseHexAcc ds 0 = hexValOfDigits ds := parseHexAcc_eq_foldl ds hdigits 0
  have hlt : hexValOfDigits ds < 16777216 := by
    have hb := foldl_hexVal_lt ds hdigits 0
    rw [hlen] at hb
    have : hexValOfDigits ds < 16 ^ 6 * (0 + 1) := hb
    norm_num at this
    exact this
  have hn : toUint32 (jsParseIntHex (stripHash hex.data)) = hexValOfDigits ds := by
    rw [hstrip, jsParseIntHex_of_digits ds hne hdigits, hval]
    simp only [toUint32]
    omega
  have hr : hexToRgb hex =
      { r := hexValOfDigits ds / 2 ^ 16 % 256
        g := hexValOfDigits ds / 2 ^ 8 % 256
        b := hexValOfDigits ds % 256 } := by
    unfold hexToRgb
    rw [hn]
  rw [hr]
  have e16 : (2 : ℕ) ^ 16 = 65536 := by norm_num
  have e8 : (2 : ℕ) ^ 8 = 256 := by norm_num
  simp only [e16, e8]
  refine ⟨?_, ?_, ?_, ?_⟩ <;> omega

/-- C3: the concrete raster scenario — template declared 842×595 with an
actual 842×595 raster, a single left-aligned `studentName` field at
`(100, 100)` with box width 200 and font size 20, resolved value
`"Jane Doe"` — yields a single-page output sized 631.5×446.25 points
(842×0.75 by 595×0.75) whose pre-flatten composite holds exactly one text
overlay, `"Jane Doe"` positioned at raster field anchor `(100, 100)`
(SVG baseline attribute at `100 + 20`). -/
theorem raster_scenario :
    generateFromImage (fun _ _ _ => 0) (Except.ok ())
      { fields := [{ id := "f1", name := "studentName", x := 100, y := 100, width := 200,
                     height := 50, fontSize := 20, fontFamily := "Helvetica",
                     fontColor := "#000000", textAlign := TextAlign.left,
                     fontWeight := FontWeight.normal, fontStyle := FontStyle.normal }]
        data := [("studentName", "Jane Doe")]
        templateWidth := 842, templateHeight := 595
        imageWidth := 842, imageHeight := 595
        qrCodeData := none } =
      { pageCount := 1
        pageWidth := 631.5
        pageHeight := 446.25
        overlays := [{ canvasWidth := 842, canvasHeight := 595, textX := 100, textY := 100 + 20,
                       fieldX := 100, fieldY := 100, fontFamily := "Helvetica", fontSize := 20,
                       fontWeight := "normal", fontStyle := "normal",
                       fill := { r := 0, g := 0, b := 0 },
                       textAnchor := "left", content := "Jane Doe" }]
        qrOps := [] } := by
  simp only [generateFromImage, List.filterMap_cons, List.filterMap_nil, rasterOverlayFor,
    rasterScaledGeom, dataLookup, qrOpsFor, jsRound_eq, alignStr]
  norm_num
  rw [if_neg (by decide : ¬ ("Jane Doe" = ""))]
  norm_num
  decide

/-- C9 (witness): `hexToRgb "#1A2B3C"` is lossless; `0x1A2B3C = 1715004`. -/
theorem hexToRgb_lossless_witness :
    (hexToRgb "#1A2B3C").r ≤ 255 ∧ (hexToRgb "#1A2B3C").g ≤ 255 ∧
    (hexToRgb "#1A2B3C").b ≤ 255 ∧
    (hexToRgb "#1A2B3C").r * 65536 + (hexToRgb "#1A2B3C").g * 256 +
      (hexToRgb "#1A2B3C").b = hexValOfDigits ['1', 'A', '2', 'B', '3', 'C'] :=
  hexToRgb_lossless "#1A2B3C" ['1', 'A', '2', 'B', '3', 'C']
    (Or.inr (by decide)) (by decide) (by decide)

/-- C5: in the vector renderer, for a field with a non-empty resolved value,
`textAlign = right` puts the left edge of the drawn text at
`scaledX + scaledW - textWidth` (that is, `x*scaleX + width*scaleX - T`), and
`textAlign = center` puts it at `scaledX + scaledW/2 - T/2`, with
`T = widthOfTextAtSize(value, scaledFontSize)` for the selected font; the
equalities are exact over ℚ. -/
theorem vector_alignment (metrics : Metrics) (templateW templateH pageW pageH : ℚ)
    (data : List (String × String)) (field : TemplateField)
    (hv : dataLookup data field.name ≠ "") :
    (field.textAlign = TextAlign.right →
      vectorDrawField metrics templateW templateH pageW pageH data field =
        some (DrawOp.text (dataLookup data field.name)
          (field.x * (pageW / templateW) + field.width * (pageW / templateW) -
            metrics (resolveFont (selectFontKey field)) (dataLookup data field.name)
              (field.fontSize * (pageH / templateH)))
          (pageH - field.y * (pageH / templateH))
          (field.fontSize * (pageH / templateH))
          (resolveFont (selectFontKey field))
          (rgb01Of field.fontColor))) ∧
    (field.textAlign = TextAlign.center →
      vectorDrawField metrics templateW templateH pageW pageH data field =
        some (DrawOp.text (dataLookup data field.name)
          (field.x * (pageW / templateW) + field.width * (pageW / templateW) / 2 -
            metrics (resolveFont (selectFontKey field)) (dataLookup data field.name)
              (field.fontSize * (pageH / templateH)) / 2)
          (pageH - field.y * (pageH / templateH))
          (field.fontSize * (pageH / templateH))
          (resolveFont (selectFontKey field))
          (rgb01Of field.fontColor))) := by
  constructor <;> intro ha <;>
    · unfold vectorDrawField
      rw [if_neg hv, ha]

/-- C5 (witness): right-aligned field at `x = 10`, box width 50, font size 10,
canvas 100×100, page 200×300, constant metrics 7: left edge
`10*2 + 50*2 - 7 = 113`. -/
theorem vector_alignment_witness :
    vectorDrawField (fun _ _ _ => 7) 100 100 200 300 [("n", "Hi")]
      { id := "f1", name := "n", x := 10, y := 20, width := 50, height := 10,
        fontSize := 10, fontFamily := "Helvetica", fontColor := "#000000",
        textAlign := TextAlign.right, fontWeight := FontWeight.normal,
        fontStyle := FontStyle.normal } =
      some (DrawOp.text "Hi" (10 * (200 / 100) + 50 * (200 / 100) - 7)
        (300 - 20 * (300 / 100)) (10 * (300 / 100)) "Helvetica"
        (rgb01Of "#000000")) := by
  have h := (vector_alignment (fun _ _ _ => 7) 100 100 200 300 [("n", "Hi")]
    { id := "f1", name := "n", x := 10, y := 20, width := 50, height := 10,
      fontSize := 10, fontFamily := "Helvetica", fontColor := "#000000",
      textAlign := TextAlign.right, fontWeight := FontWeight.normal,
      fontStyle := FontStyle.normal } (by decide)).1 rfl
  simpa using h

/-- C6: a failure inside QR generation/compositing is swallowed by the `catch`
in `addQRCodeToPDF`: for every configuration, generation with a failing QR
stage completes and produces exactly the output of the same configuration with
no QR data at all (the certificate without a QR code), in both the vector and
the raster branch. -/
theorem qr_failure_swallowed (metrics : Metrics) (e : String)
    (cfgV : VectorConfig) (cfgR : RasterConfig) (qrV qrR : Except String Unit) :
    generateFromPDF metrics (Except.error e) cfgV =
      generateFromPDF metrics qrV
        { fields := cfgV.fields, data := cfgV.data,
          templateWidth := cfgV.templateWidth, templateHeight := cfgV.templateHeight,
          pageWidth := cfgV.pageWidth, pageHeight := cfgV.pageHeight,
          qrCodeData := none } ∧
    generateFromImage metrics (Except.error e) cfgR =
      generateFromImage metrics qrR
        { fields := cfgR.fields, data := cfgR.data,
          templateWidth := cfgR.templateWidth, templateHeight := cfgR.templateHeight,
          imageWidth := cfgR.imageWidth, imageHeight := cfgR.imageHeight,
          qrCodeData := none } := by
  constructor
  · unfold generateFromPDF qrOpsFor addQRCodeToPDF
    cases cfgV.qrCodeData with
    | none => rfl
    | some s =>
      by_cases hs : s = "" <;> simp [hs]
  · unfold generateFromImage qrOpsFor addQRCodeToPDF
    cases cfgR.qrCodeData with
    | none => rfl
    | some s =>
      by_cases hs : s = "" <;> simp [hs]

/-- C7: whenever QR annotation succeeds, with a non-empty QR data string, the
vector output ends with exactly two extra draw calls independent of the
template: a 60×60 image whose lower-left corner is `(pageWidth - 90, 30)` —
spanning `(pageWidth-90, 30)` to `(pageWidth-30, 90)` — and a
`Scan to verify` caption below the code (`y = 18 < 30`) whose horizontal
centre coincides with the horizontal centre of the QR code. -/
theorem qr_placement (metrics : Metrics) (cfg : VectorConfig) (s : String)
    (hq : cfg.qrCodeData = some s) (hs : s ≠ "") :
    (generateFromPDF metrics (Except.ok ()) cfg).ops =
      cfg.fields.filterMap (vectorDrawField metrics cfg.templateWidth cfg.templateHeight
        cfg.pageWidth cfg.pageHeight cfg.data) ++
      [DrawOp.image (cfg.pageWidth - 90) 30 60 60,
       DrawOp.text "Scan to verify"
         (cfg.pageWidth - 90 + (60 - metrics "Helvetica" "Scan to verify" 8) / 2)
         18 8 "Helvetica" { r := 2/5, g := 2/5, b := 2/5 }] ∧
    (cfg.pageWidth - 90) + 60 = cfg.pageWidth - 30 ∧
    ((30 : ℚ)) + 60 = 90 ∧
    (cfg.pageWidth - 90 + (60 - metrics "Helvetica" "Scan to verify" 8) / 2) +
        metrics "Helvetica" "Scan to verify" 8 / 2 =
      (cfg.pageWidth - 90) + 60 / 2 := by
  refine ⟨?_, by ring, by norm_num, by ring⟩
  unfold generateFromPDF qrOpsFor addQRCodeToPDF
  rw [hq]
  dsimp only
  rw [if_neg hs]
  congr 3 <;> ring_nf

/-- C7 (witness): page 200×100, QR data `"u"`, constant metrics 20: the QR
block is at `(110, 30)`, the caption at `(130, 18)`. -/
theorem qr_placement_witness :
    (generateFromPDF (fun _ _ _ => 20) (Except.ok ())
        { fields := [], data := [], templateWidth := 1, templateHeight := 1,
          pageWidth := 200, pageHeight := 100, qrCodeData := some "u" }).ops =
      [DrawOp.image (200 - 90) 30 60 60,
       DrawOp.text "Scan to verify" (200 - 90 + (60 - 20) / 2) 18 8 "Helvetica"
         { r := 2/5, g := 2/5, b := 2/5 }] ∧
    ((200 : ℚ) - 90) + 60 = 200 - 30 ∧
    ((30 : ℚ)) + 60 = 90 ∧
    ((200 : ℚ) - 90 + (60 - 20) / 2) + 20 / 2 = (200 - 90) + 60 / 2 := by
  have h := qr_placement (fun _ _ _ => 20)
    { fields := [], data := [], templateWidth := 1, templateHeight := 1,
      pageWidth := 200, pageHeight := 100, qrCodeData := some "u" } "u" rfl (by decide)
  simpa using h

/-- C8: a field whose resolved value is empty (in particular any field whose
name is absent from the data map) is skipped entirely: rendering with that
field inserted anywhere in the field list gives output identical to rendering
with it removed, in both the vector and the raster branch. -/
theorem empty_value_skipped (metrics : Metrics) (qrGen : Except String Unit)
    (data : List (String × String)) (f : TemplateField)
    (pre post : List TemplateField)
    (templateW templateH pageW pageH imageW imageH : ℚ)
    (qrCodeData : Option String)
    (hf : dataLookup data f.name = "") :
    generateFromPDF metrics qrGen
      { fields := pre ++ f :: post, data := data, templateWidth := templateW,
        templateHeight := templateH, pageWidth := pageW, pageHeight := pageH,
        qrCodeData := qrCodeData } =
    generateFromPDF metrics qrGen
      { fields := pre ++ post, data := data, templateWidth := templateW,
        templateHeight := templateH, pageWidth := pageW, pageHeight := pageH,
        qrCodeData := qrCodeData } ∧
    generateFromImage metrics qrGen
      { fields := pre ++ f :: post, data := data, templateWidth := templateW,
        templateHeight := templateH, imageWidth := imageW, imageHeight := imageH,
        qrCodeData := qrCodeData } =
    generateFromImage metrics qrGen
      { fields := pre ++ post, data := data, templateWidth := templateW,
        templateHeight := templateH, imageWidth := imageW, imageHeight := imageH,
        qrCodeData := qrCodeData } := by
  have hvec : vectorDrawField metrics templateW templateH pageW pageH data f = none := by
    simp [vectorDrawField, hf]
  have hrast : rasterOverlayFor templateW templateH imageW imageH data f = none := by
    simp [rasterOverlayFor, hf]
  constructor
  · unfold generateFromPDF
    simp [List.filterMap_append, List.filterMap_cons, hvec]
  · unfold generateFromImage
    simp [List.filterMap_append, List.filterMap_cons, hrast]

/-- C8 (witness): a single field named `unknownField` with an empty data map
renders identically to an empty field list, in both branches. -/
theorem empty_value_skipped_witness :
    generateFromPDF (fun _ _ _ => 0) (Except.ok ())
      { fields := [] ++ { id := "f1", name := "unknownField", x := 1, y := 2, width := 3,
                          height := 4, fontSize := 5, fontFamily := "Helvetica",
                          fontColor := "#000000", textAlign := TextAlign.left,
                          fontWeight := FontWeight.normal,
                          fontStyle := FontStyle.normal } :: [],
        data := [], templateWidth := 842, templateHeight := 595,
        pageWidth := 842, pageHeight := 595, qrCodeData := none } =
    generateFromPDF (fun _ _ _ => 0) (Except.ok ())
      { fields := [] ++ [], data := [], templateWidth := 842, templateHeight := 595,
        pageWidth := 842, pageHeight := 595, qrCodeData := none } ∧
    generateFromImage (fun _ _ _ => 0) (Except.ok ())
      { fields := [] ++ { id := "f1", name := "unknownField", x := 1, y := 2, width := 3,
                          height := 4, fontSize := 5, fontFamily := "Helvetica",
                          fontColor := "#000000", textAlign := TextAlign.left,
                          fontWeight := FontWeight.normal,
                          fontStyle := FontStyle.normal } :: [],
        data := [], templateWidth := 842, templateHeight := 595,
        imageWidth := 842, imageHeight := 595, qrCodeData := none } =
    generateFromImage (fun _ _ _ => 0) (Except.ok ())
      { fields := [] ++ [], data := [], templateWidth := 842, templateHeight := 595,
        imageWidth := 842, imageHeight := 595, qrCodeData := none } :=
  empty_value_skipped (fun _ _ _ => 0) (Except.ok ()) []
    { id := "f1", name := "unknownField", x := 1, y := 2, width := 3,
      height := 4, fontSize := 5, fontFamily := "Helvetica", fontColor := "#000000",
      textAlign := TextAlign.left, fontWeight := FontWeight.normal,
      fontStyle := FontStyle.normal } [] [] 842 595 842 595 842 595 none rfl

/-- C10: the vector renderer never consults `fontStyle`: two configurations
whose fields agree after forgetting `fontStyle` (and agree elsewhere) produce
identical vector output, draw call for draw call. -/
theorem vector_fontStyle_noninterference (metrics : Metrics) (qrGen : Except String Unit)
    (cfg1 cfg2 : VectorConfig)
    (hfields : cfg1.fields.map eraseFontStyle = cfg2.fields.map eraseFontStyle)
    (hdata : cfg1.data = cfg2.data)
    (htw : cfg1.templateWidth = cfg2.templateWidth)
    (hth : cfg1.templateHeight = cfg2.templateHeight)
    (hpw : cfg1.pageWidth = cfg2.pageWidth)
    (hph : cfg1.pageHeight = cfg2.pageHeight)
    (hqr : cfg1.qrCodeData = cfg2.qrCodeData) :
    generateFromPDF metrics qrGen cfg1 = generateFromPDF metrics qrGen cfg2 := by
  have hcomp : (vectorDrawField metrics cfg2.templateWidth cfg2.templateHeight
      cfg2.pageWidth cfg2.pageHeight cfg2.data) ∘ eraseFontStyle =
      vectorDrawField metrics cfg2.templateWidth cfg2.templateHeight
        cfg2.pageWidth cfg2.pageHeight cfg2.data :=
    funext fun _ => rfl
  have hfm : cfg1.fields.filterMap (vectorDrawField metrics cfg2.templateWidth
      cfg2.templateHeight cfg2.pageWidth cfg2.pageHeight cfg2.data) =
      cfg2.fields.filterMap (vectorDrawField metrics cfg2.templateWidth
        cfg2.templateHeight cfg2.pageWidth cfg2.pageHeight cfg2.data) := by
    rw [← hcomp, ← List.filterMap_map, ← List.filterMap_map, hfields]
  unfold generateFromPDF
  rw [htw, hth, hpw, hph, hdata, hqr, hfm]

/-- C10 (witness): one italic field versus the same field upright: identical
vector output. -/
theorem vector_fontStyle_noninterference_witness :
    generateFromPDF (fun _ _ _ => 5) (Except.ok ())
      { fields := [{ id := "f1", name := "n", x := 10, y := 20, width := 50,
                     height := 10, fontSize := 12, fontFamily := "Times-Roman",
                     fontColor := "#102030", textAlign := TextAlign.center,
                     fontWeight := FontWeight.bold, fontStyle := FontStyle.italic }],
        data := [("n", "Hi")], templateWidth := 100, templateHeight := 100,
        pageWidth := 200, pageHeight := 300, qrCodeData := none } =
    generateFromPDF (fun _ _ _ => 5) (Except.ok ())
      { fields := [{ id := "f1", name := "n", x := 10, y := 20, width := 50,
                     height := 10, fontSize := 12, fontFamily := "Times-Roman",
                     fontColor := "#102030", textAlign := TextAlign.center,
                     fontWeight := FontWeight.bold, fontStyle := FontStyle.normal }],
        data := [("n", "Hi")], templateWidth := 100, templateHeight := 100,
        pageWidth := 200, pageHeight := 300, qrCodeData := none } :=
  vector_fontStyle_noninterference (fun _ _ _ => 5) (Except.ok ()) _ _
    rfl rfl rfl rfl rfl rfl rfl

end CertMaker
